import Mathlib

/-!
Verification of the pl_bolts model templates (the MNIST classifier
`LitMNISTModel` and the self-supervised CPC v2 module `CPCV2`) against their
natural-language specification.

The Python source is shallowly embedded:

* tensors are modelled at the shape level (a `List Nat` of dimension sizes)
  where only shapes matter, and at the value level (nested `List ℚ`) where
  values matter;
* fallible tensor operations (`view` with an inferred dimension, dictionary
  and list indexing) return `Option` or a dedicated outcome type;
* autograd is modelled by pairing each scalar with its sensitivity to one
  fixed encoder parameter; `detach()` and `torch.no_grad()` zero that
  sensitivity.

External collaborators (the torch backbone networks, the `CPCTask` loss, the
`SSLEvaluator` probe, `F.cross_entropy`) are parameters of the embedded
functions, constrained only where a claim needs it.
-/

namespace PlBolts

/-! ## Shape-level tensor operations used by `CPCV2.__recover_z_shape`
(src/pl_bolts/models/self_supervised/cpc/cpc_module.py, lines 173-181) -/

/-- `Tensor.squeeze(-1)`: removes the last dimension exactly when it is 1,
otherwise leaves the shape unchanged. -/
def squeeze_last (s : List Nat) : List Nat :=
  if s.getLast? = some 1 then s.dropLast else s

/-- `Tensor.view(before..., -1, after...)` with a single `-1` dimension,
which is inferred from the total element count.  PyTorch raises when the
known dimensions do not evenly divide the element count, or when the element
count is 0 (the inferred size would be ambiguous); both cases are `none`. -/
def view_infer (total : Nat) (before after : List Nat) : Option (List Nat) :=
  let known := before.prod * after.prod
  if total ≠ 0 ∧ known ≠ 0 ∧ total % known = 0 then
    some (before ++ [total / known] ++ after)
  else
    none

/-- `Tensor.permute(0, 2, 1)` on a rank-3 shape: swaps the last two
dimensions.  (The caller below only reaches it with rank-3 shapes, which is
why other ranks are passed through.) -/
def permute021 (s : List Nat) : List Nat :=
  match s with
  | [a, x, y] => [a, y, x]
  | other => other

/-- Shape-level embedding of `CPCV2.__recover_z_shape(Z, b)`:

    Z = Z.squeeze(-1)
    nb_feats = int(math.sqrt(Z.size(0) // b))
    Z = Z.view(b, -1, Z.size(1))
    Z = Z.permute(0, 2, 1).contiguous()
    Z = Z.view(b, -1, nb_feats, nb_feats)

`int(math.sqrt n)` on a natural number is the integer square root
(`Nat.sqrt`; exact for the perfect squares the module produces), `//` is
floor division, and `contiguous()` does not change the shape.  `size(0)` and
`size(1)` fail (`none`) on a shape of rank below 2, as in PyTorch. -/
def recover_z_shape (s : List Nat) (b : Nat) : Option (List Nat) :=
  let s1 := squeeze_last s
  (s1.head?).bind fun d0 =>
  (s1.get? 1).bind fun d1 =>
  let nb_feats := Nat.sqrt (d0 / b)
  (view_infer s1.prod [b] [d1]).bind fun s2 =>
  let s3 := permute021 s2
  view_infer s3.prod [b] [nb_feats, nb_feats]

/-- Helper: `view_infer` succeeds and fills in the hole when the element
count factors as `x * y * after.prod` with every factor nonzero. -/
theorem view_infer_eq (x y : Nat) (after : List Nat)
    (hx : x ≠ 0) (hy : y ≠ 0) (ha : after.prod ≠ 0) :
    view_infer (x * y * after.prod) [x] after = some (x :: y :: after) := by
  have hxa : x * after.prod ≠ 0 := Nat.mul_ne_zero hx ha
  have hre : x * y * after.prod = x * after.prod * y := by ring
  simp only [view_infer, List.prod_singleton]
  rw [if_pos]
  · rw [hre, Nat.mul_div_cancel_left _ (Nat.pos_of_ne_zero hxa)]
    simp
  · refine ⟨by positivity, hxa, ?_⟩
    rw [hre]
    exact Nat.mul_mod_right _ _

/-- C1: for every batch size `b ≥ 1`, channel count `c ≥ 1` and square patch
count `P = k * k`, `__recover_z_shape` applied to a flattened encoder output
of shape `(b*P, c, 1, 1)` yields shape `(b, c, k, k)`: the spatial grid side
is `k` (the integer square root of `P`), the channel count is preserved, and
the total element count `b*P*c` is unchanged. -/
theorem recover_z_shape_square
    (b c k : Nat) (hb : 1 ≤ b) (hc : 1 ≤ c) (hk : 1 ≤ k) :
    recover_z_shape [b * (k * k), c, 1, 1] b = some [b, c, k, k] ∧
      ([b, c, k, k] : List Nat).prod = b * (k * k) * c := by
  have hb0 : b ≠ 0 := Nat.one_le_iff_ne_zero.mp hb
  have hc0 : c ≠ 0 := Nat.one_le_iff_ne_zero.mp hc
  have hk0 : k ≠ 0 := Nat.one_le_iff_ne_zero.mp hk
  have hkk : k * k ≠ 0 := Nat.mul_ne_zero hk0 hk0
  have hcp : ([c] : List Nat).prod ≠ 0 := by simpa using hc0
  have hkp : ([k, k] : List Nat).prod ≠ 0 := by simpa using hkk
  constructor
  · have hsq : squeeze_last [b * (k * k), c, 1, 1] = [b * (k * k), c, 1] := by
      simp [squeeze_last]
    have hdiv : b * (k * k) / b = k * k :=
      Nat.mul_div_cancel_left _ (Nat.pos_of_ne_zero hb0)
    have hprod1 :
        ([b * (k * k), c, 1] : List Nat).prod = b * (k * k) * ([c] : List Nat).prod := by
      simp [List.prod]
    have hv1 : view_infer (b * (k * k) * ([c] : List Nat).prod) [b] [c]
        = some [b, k * k, c] := by
      simpa using view_infer_eq b (k * k) [c] hb0 hkk hcp
    have hprod2 :
        ([b, c, k * k] : List Nat).prod = b * c * ([k, k] : List Nat).prod := by
      simp [List.prod]; ring
    have hv2 : view_infer (b * c * ([k, k] : List Nat).prod) [b] [k, k]
        = some [b, c, k, k] :=
      view_infer_eq b c [k, k] hb0 hc0 hkp
    simp only [recover_z_shape, hsq, List.head?, List.get?, hprod1, hv1,
      Option.some_bind, hdiv, Nat.sqrt_eq, permute021, hprod2, hv2]
  · simp [List.prod]; ring

/-- C1 witness: batch 2, 5 channels, a 3-by-3 patch grid (9 patches). -/
theorem recover_z_shape_square_witness :
    recover_z_shape [2 * (3 * 3), 5, 1, 1] 2 = some [2, 5, 3, 3] ∧
      ([2, 5, 3, 3] : List Nat).prod = 2 * (3 * 3) * 5 :=
  recover_z_shape_square 2 5 3 (by decide) (by decide) (by decide)

/-! ## `CPCV2.get_dataset` (cpc_module.py, lines 148-159) -/

/-- The three external dataset/dataloader providers `CPCV2.get_dataset` can
construct.  Their construction arguments (`data_dir`, `num_workers`,
`meta_root`) do not influence which provider is chosen and are owned by the
external datamodule package, so only the provider identity is modelled. -/
inductive DatasetProvider
  | CIFAR10DataLoaders
  | STL10DataLoaders
  | SSLImagenetDataLoaders
deriving DecidableEq

/-- Outcome of `CPCV2.get_dataset`: a provider instance, or the
`FileNotFoundError` raised on an unrecognized name, carrying its message. -/
inductive DatasetResult
  | provider (p : DatasetProvider)
  | fileNotFoundError (msg : String)
deriving DecidableEq

/-- Embedding of `CPCV2.get_dataset(name)`: three string comparisons in
source order, with the unrecognized-name branch raising

    FileNotFoundError(f"the \x7bname\x7d dataset is not supported. "
                      "Subclass \x27get_dataset to provide" "your own \x27")

(the two f-string fragments are adjacent literals in the source, hence the
missing space before "your own"; `\x27` is the quote character). -/
def get_dataset (name : String) : DatasetResult :=
  if name = "cifar10" then .provider .CIFAR10DataLoaders
  else if name = "stl10" then .provider .STL10DataLoaders
  else if name = "imagenet128" then .provider .SSLImagenetDataLoaders
  else .fileNotFoundError
    ("the " ++ name ++ " dataset is not supported. Subclass \x27get_dataset to provide"
      ++ "your own \x27")

/-- C2: `get_dataset` returns a provider instance exactly on the names
"cifar10", "stl10" and "imagenet128"; every other name raises a
dataset-not-found error whose message contains the offending name. -/
theorem get_dataset_spec (name : String) :
    (name = "cifar10" ∨ name = "stl10" ∨ name = "imagenet128" →
      ∃ p, get_dataset name = .provider p) ∧
    (name ≠ "cifar10" → name ≠ "stl10" → name ≠ "imagenet128" →
      ∃ msg, get_dataset name = .fileNotFoundError msg ∧ name.data <:+: msg.data) := by
  constructor
  · rintro (rfl | rfl | rfl)
    · exact ⟨.CIFAR10DataLoaders, rfl⟩
    · exact ⟨.STL10DataLoaders, rfl⟩
    · exact ⟨.SSLImagenetDataLoaders, rfl⟩
  · intro h1 h2 h3
    refine ⟨"the " ++ name ++ " dataset is not supported. Subclass \x27get_dataset to provide"
      ++ "your own \x27", ?_, ?_⟩
    · simp [get_dataset, h1, h2, h3]
    · refine ⟨("the " : String).data,
        (" dataset is not supported. Subclass \x27get_dataset to provide"
          ++ "your own \x27" : String).data, ?_⟩
      simp [String.data_append]

/-- C2 witness: "cifar10" yields a provider; "mnist" yields an error whose
message contains "mnist". -/
theorem get_dataset_spec_witness :
    (∃ p, get_dataset "cifar10" = .provider p) ∧
    (∃ msg, get_dataset "mnist" = .fileNotFoundError msg ∧
      ("mnist" : String).data <:+: msg.data) :=
  ⟨(get_dataset_spec "cifar10").1 (Or.inl rfl),
   (get_dataset_spec "mnist").2 (by decide) (by decide) (by decide)⟩

/-! ## Pretrained-weight loading
(src/pl_bolts/utils/pretrained_weights.py and cpc_module.py, lines 131-137) -/

/-- The fixed name-to-checkpoint mapping `urls` of
pl_bolts/utils/pretrained_weights.py, as an association list in source
order. -/
def urls : List (String × String) :=
  [("vae-imagenet",
    "https://pl-bolts-weights.s3.us-east-2.amazonaws.com/vae/version_0/checkpoints/epoch%3D2.ckpt"),
   ("CPCV2-resnet18",
    "https://pl-bolts-weights.s3.us-east-2.amazonaws.com/cpc/resnet18_version_6/checkpoints/epoch%3D85.ckpt")]

/-- Outcome of the `load_pretrained` utility: the checkpoint URL it loads
from, or the `KeyError` raised by `urls[class_name]` on a missing key. -/
inductive UtilLoadResult
  | loaded (ckpt_url : String)
  | keyError (key : String)
deriving DecidableEq

/-- Embedding of the utility `load_pretrained(model, class_name)` up to its
URL lookup: `ckpt_url = urls[class_name]` raises `KeyError(class_name)` when
the key is absent.  Checkpoint download and state-dict deserialization are
delegated to the external framework and not modelled.  (The `class_name is
None` default is never exercised by the call path under study, which always
passes an explicit name.) -/
def load_pretrained_lookup (class_name : String) : UtilLoadResult :=
  match urls.find? (fun kv => kv.1 == class_name) with
  | some kv => .loaded kv.2
  | none => .keyError class_name

/-- The set `available_weights = {"resnet18"}` of `CPCV2.load_pretrained`. -/
def available_weights : List String := ["resnet18"]

/-- Outcome of the method `CPCV2.load_pretrained`. -/
inductive MethodLoadResult
  | loaded (key : String) (res : UtilLoadResult)
  | warned (msg : String)
deriving DecidableEq

/-- Embedding of `CPCV2.load_pretrained(pretrained)`:

    available_weights = {"resnet18"}
    if pretrained in available_weights:
        load_pretrained(self, f"CPCV2-\x7bpretrained\x7d")
    elif available_weights not in available_weights:
        rank_zero_warn(f"\x7bpretrained\x7d not yet available")

The `elif` guard asks whether the set `available_weights` is a member of
itself.  CPython evaluates `set in set` by coercing the unhashable left
operand to a `frozenset`; since no element of `available_weights` is itself
a set, the membership test is False, so the guard is always True and the
branch always warns.  The guard is therefore embedded as an uncondition
else-branch. -/
def CPCV2_load_pretrained (pretrained : String) : MethodLoadResult :=
  if pretrained ∈ available_weights then
    .loaded ("CPCV2-" ++ pretrained) (load_pretrained_lookup ("CPCV2-" ++ pretrained))
  else
    .warned (pretrained ++ " not yet available")

/-- C3: an unmapped name is warned-and-skipped on the `CPCV2.load_pretrained`
path and raises a key-lookup error on the `load_pretrained` utility path,
while the mapped name "resnet18" resolves through the fixed mapping to the
checkpoint URL of "CPCV2-resnet18". -/
theorem load_pretrained_paths (name class_name : String)
    (hname : name ∉ available_weights)
    (hkey : ∀ kv ∈ urls, kv.1 ≠ class_name) :
    CPCV2_load_pretrained name = .warned (name ++ " not yet available") ∧
    load_pretrained_lookup class_name = .keyError class_name ∧
    CPCV2_load_pretrained "resnet18" =
      .loaded "CPCV2-resnet18"
        (.loaded "https://pl-bolts-weights.s3.us-east-2.amazonaws.com/cpc/resnet18_version_6/checkpoints/epoch%3D85.ckpt") := by
  refine ⟨?_, ?_, ?_⟩
  · simp [CPCV2_load_pretrained, hname]
  · have hfind : urls.find? (fun kv => kv.1 == class_name) = none := by
      rw [List.find?_eq_none]
      intro kv hkv
      simpa using hkey kv hkv
    simp [load_pretrained_lookup, hfind]
  · rfl

/-- C3 witness: "resnet50" is warned on the method path, and the key
"CPCV2-resnet50" raises a lookup error on the utility path. -/
theorem load_pretrained_paths_witness :
    CPCV2_load_pretrained "resnet50" = .warned ("resnet50" ++ " not yet available") ∧
    load_pretrained_lookup "CPCV2-resnet50" = .keyError "CPCV2-resnet50" ∧
    CPCV2_load_pretrained "resnet18" =
      .loaded "CPCV2-resnet18"
        (.loaded "https://pl-bolts-weights.s3.us-east-2.amazonaws.com/cpc/resnet18_version_6/checkpoints/epoch%3D85.ckpt") :=
  load_pretrained_paths "resnet50" "CPCV2-resnet50" (by decide) (by decide)

/-! ## The MNIST classifier `LitMNISTModel`
(src/pl_bolts/models/mnist_module.py) -/

/-- `torch.relu` on one scalar. -/
def reluQ (x : ℚ) : ℚ := max x 0

/-- Dot product, the row-times-vector kernel of `torch.nn.Linear`. -/
def dotQ : List ℚ → List ℚ → ℚ
  | a :: as, b :: bs => a * b + dotQ as bs
  | _, _ => 0

/-- One `torch.nn.Linear` layer applied to one vector: `W x + bias`, one
output scalar per weight row. -/
def linearQ (weight : List (List ℚ)) (bias : List ℚ) (x : List ℚ) : List ℚ :=
  (weight.zip bias).map (fun wb => dotQ wb.1 x + wb.2)

/-- The learnable state of `LitMNISTModel`: `self.l1 = Linear(28*28,
hidden_dim)` and `self.l2 = Linear(hidden_dim, 10)` (weight rows and
biases). -/
structure LitMNISTModel where
  l1_weight : List (List ℚ)
  l1_bias : List ℚ
  l2_weight : List (List ℚ)
  l2_bias : List ℚ

/-- Embedding of `LitMNISTModel.forward(x)`:

    x = x.view(x.size(0), -1)
    x = torch.relu(self.l1(x))
    x = torch.relu(self.l2(x))
    return x

The input batch is a list of images, each a (channels, height, width) nested
list; `view(x.size(0), -1)` flattens each image, and each linear layer acts
row-wise on the batch. -/
def LitMNISTModel.forward (m : LitMNISTModel)
    (x : List (List (List (List ℚ)))) : List (List ℚ) :=
  x.map (fun img =>
    let v := img.flatten.flatten
    let h1 := (linearQ m.l1_weight m.l1_bias v).map reluQ
    (linearQ m.l2_weight m.l2_bias h1).map reluQ)

/-- Flattening a list of equal-length lists multiplies the lengths. -/
theorem flatten_length_const {α : Type} (l : List (List α)) (n : Nat)
    (h : ∀ r ∈ l, r.length = n) : l.flatten.length = l.length * n := by
  induction l with
  | nil => simp
  | cons a t ih =>
    have ha : a.length = n := h a (by simp)
    have ht := ih (fun r hr => h r (by simp [hr]))
    simp [ha, ht]
    ring

/-- C4: on a batch of `N` images of shape `(1, 28, 28)`, `forward` flattens
each image to a 784-vector, feeds it through the two linear-plus-ReLU
stages `784 → hidden_dim → 10`, and returns an output of shape `(N, 10)`. -/
theorem mnist_forward_shape (m : LitMNISTModel) (hidden_dim N : Nat)
    (x : List (List (List (List ℚ))))
    (h1w : m.l1_weight.length = hidden_dim)
    (h1r : ∀ r ∈ m.l1_weight, r.length = 784)
    (h1b : m.l1_bias.length = hidden_dim)
    (h2w : m.l2_weight.length = 10)
    (h2r : ∀ r ∈ m.l2_weight, r.length = hidden_dim)
    (h2b : m.l2_bias.length = 10)
    (hx : x.length = N)
    (himg : ∀ img ∈ x, img.length = 1 ∧
      ∀ ch ∈ img, ch.length = 28 ∧ ∀ row ∈ ch, row.length = 28) :
    (∀ img ∈ x, img.flatten.flatten.length = 784) ∧
    (m.forward x).length = N ∧
    (∀ out ∈ m.forward x, out.length = 10) := by
  refine ⟨?_, ?_, ?_⟩
  · intro img himg1
    obtain ⟨hlen1, hch⟩ := himg img himg1
    have h1 : img.flatten.length = img.length * 28 :=
      flatten_length_const img 28 (fun ch hc => (hch ch hc).1)
    have h2 : ∀ row ∈ img.flatten, row.length = 28 := by
      intro row hrow
      rw [List.mem_flatten] at hrow
      obtain ⟨ch, hc, hr⟩ := hrow
      exact (hch ch hc).2 row hr
    have := flatten_length_const img.flatten 28 h2
    rw [this, h1, hlen1]
  · simp [LitMNISTModel.forward, hx]
  · intro out hout
    simp only [LitMNISTModel.forward, List.mem_map] at hout
    obtain ⟨img, _, rfl⟩ := hout
    simp [linearQ, List.length_zip, h2w, h2b]

set_option maxRecDepth 8000 in
/-- C4 witness: hidden_dim 1, a batch of one zero image. -/
theorem mnist_forward_shape_witness :
    (∀ img ∈ [[List.replicate 28 (List.replicate 28 (0 : ℚ))]],
      img.flatten.flatten.length = 784) ∧
    ((LitMNISTModel.mk [List.replicate 784 0] [0]
        (List.replicate 10 [(0 : ℚ)]) (List.replicate 10 0)).forward
      [[List.replicate 28 (List.replicate 28 (0 : ℚ))]]).length = 1 ∧
    (∀ out ∈ (LitMNISTModel.mk [List.replicate 784 0] [0]
        (List.replicate 10 [(0 : ℚ)]) (List.replicate 10 0)).forward
      [[List.replicate 28 (List.replicate 28 (0 : ℚ))]], out.length = 10) :=
  mnist_forward_shape
    (LitMNISTModel.mk [List.replicate 784 0] [0]
      (List.replicate 10 [(0 : ℚ)]) (List.replicate 10 0)) 1 1
    [[List.replicate 28 (List.replicate 28 (0 : ℚ))]]
    (by simp) (by simp) (by simp) (by simp) (by simp) (by simp) (by simp)
    (by simp)

/-- `torch.stack(losses).mean()`: arithmetic mean of the stacked per-batch
scalars. -/
def stack_mean (xs : List ℚ) : ℚ := xs.sum / xs.length

/-- The dictionary returned by the epoch-end reducers: the average loss plus
the log and progress-bar copies of it. -/
structure EpochEndResult where
  avg : ℚ
  log_val : ℚ
  progress_bar_val : ℚ
deriving DecidableEq

/-- Embedding of `LitMNISTModel.validation_epoch_end(outputs)`:

    avg_loss = torch.stack([x["val_loss"] for x in outputs]).mean()

with `outputs` the list of per-batch validation losses; the returned dict
carries `avg_val_loss` plus identical log / progress-bar entries. -/
def validation_epoch_end (outputs : List ℚ) : EpochEndResult :=
  let avg_loss := stack_mean outputs
  ⟨avg_loss, avg_loss, avg_loss⟩

/-- Embedding of `LitMNISTModel.test_epoch_end(outputs)`: identical
reduction over the per-batch test losses, returned as `avg_test_loss`. -/
def test_epoch_end (outputs : List ℚ) : EpochEndResult :=
  let avg_loss := stack_mean outputs
  ⟨avg_loss, avg_loss, avg_loss⟩

/-- C5: on a non-empty list of per-batch losses, both epoch-end reducers
return the arithmetic mean: the sum of the losses divided by the number of
batches. -/
theorem epoch_end_mean (outputs : List ℚ) (h : outputs ≠ []) :
    (validation_epoch_end outputs).avg = outputs.sum / outputs.length ∧
    (test_epoch_end outputs).avg = outputs.sum / outputs.length :=
  ⟨rfl, rfl⟩

/-- C5 witness: the two-batch list `[1, 2]`. -/
theorem epoch_end_mean_witness :
    (validation_epoch_end [1, 2]).avg = ([1, 2] : List ℚ).sum / ([1, 2] : List ℚ).length ∧
    (test_epoch_end [1, 2]).avg = ([1, 2] : List ℚ).sum / ([1, 2] : List ℚ).length :=
  epoch_end_mean [1, 2] (by simp)

/-- C9: every entry of the classifier output is non-negative, because
`torch.relu` is applied after the final linear layer: the returned
"logits" can never contain a negative value. -/
theorem mnist_forward_nonneg (m : LitMNISTModel)
    (x : List (List (List (List ℚ)))) :
    ∀ out ∈ m.forward x, ∀ v ∈ out, 0 ≤ v := by
  intro out hout v hv
  simp only [LitMNISTModel.forward, List.mem_map] at hout
  obtain ⟨img, _, rfl⟩ := hout
  simp only [List.mem_map] at hv
  obtain ⟨y, _, rfl⟩ := hv
  exact le_max_right y 0

/-- C9 witness: a concrete output entry of a concrete model is
non-negative. -/
theorem mnist_forward_nonneg_witness :
    [(0 : ℚ)] ∈ (LitMNISTModel.mk [[]] [0] [[]] [0]).forward [[[[(0 : ℚ)]]]] ∧
    0 ≤ (0 : ℚ) :=
  ⟨by simp [LitMNISTModel.forward, linearQ, dotQ, reluQ],
   mnist_forward_nonneg (LitMNISTModel.mk [[]] [0] [[]] [0]) [[[[(0 : ℚ)]]]]
     [(0 : ℚ)] (by simp [LitMNISTModel.forward, linearQ, dotQ, reluQ])
     (0 : ℚ) (by simp)⟩

/-! ## `CPCV2.training_step` (cpc_module.py, lines 200-239)

Autograd is modelled in forward mode with respect to one fixed encoder
parameter: every scalar carries its value together with its sensitivity
(directional derivative) to that parameter.  `torch.no_grad()` and
`.detach()` cut the autograd graph, which here means the sensitivity of the
produced value is zero. -/

/-- A scalar with its sensitivity to the fixed encoder parameter. -/
structure Dual where
  val : ℚ
  grad : ℚ
deriving DecidableEq

/-- Addition of two tracked scalars (`nce_loss + mlp_loss`). -/
def Dual.add (a b : Dual) : Dual := ⟨a.val + b.val, a.grad + b.grad⟩

/-- `.detach()` on a latent grid, given as one flattened feature row per
sample (`z_in.reshape(Z.size(0), -1)` in the source): the values survive,
the graph does not. -/
def detachZ (Z : List (List Dual)) : List (List Dual) :=
  Z.map (fun row => row.map (fun d => ⟨d.val, 0⟩))

/-- A forward pass wrapped in `torch.no_grad()`: same values, no graph. -/
def noGradZ (Z : List (List Dual)) : List (List Dual) := detachZ Z

/-- One `(img_1, y)` pair as unpacked by `training_step`.  The image type is
abstract: `training_step` only ever hands it to the forward pass. -/
structure LabeledBatch (Img : Type) where
  img : Img
  y : List Nat

/-- The batch handed over by the external trainer: a single labeled pair,
or — for the stl10 mixed loaders — an (unlabeled, labeled) pair of pairs. -/
inductive CPCBatch (Img : Type)
  | plain (b : LabeledBatch Img)
  | mixed (unlabeled labeled : LabeledBatch Img)

/-- The dictionary returned by `training_step`: the scalar loss and the
logged nce / mlp losses. -/
structure CPCStepResult where
  loss : Dual
  train_nce_loss : Dual
  train_mlp_loss : Option Dual
deriving DecidableEq

/-- Embedding of `CPCV2.training_step(batch, batch_nb)`.

    if self.hparams.dataset == "stl10":
        labeled_batch = batch[1]; unlabeled_batch = batch[0]
        batch = unlabeled_batch
    img_1, y = batch
    Z = self(img_1)
    nce_loss = self.info_nce(Z)
    loss = nce_loss
    if self.online_evaluator:
        if self.hparams.dataset == "stl10":
            img_1, y = labeled_batch
        with torch.no_grad():
            Z = self(img_1)
        z_in = Z.detach()
        z_in = z_in.reshape(Z.size(0), -1)
        mlp_preds = self.non_linear_evaluator(z_in)
        mlp_loss = F.cross_entropy(mlp_preds, y)
        loss = nce_loss + mlp_loss
    return {"loss": loss, "log": ...}

`fwd` is `self.__call__` (encoder forward plus reshape), already delivering
one flattened feature row per sample, so the inner `reshape` is the
identity here; `info_nce` is the external `CPCTask`; `probe` is the external
`SSLEvaluator`; `cross_entropy` is `F.cross_entropy`.  A batch whose shape
does not match the dataset kind would fail tuple unpacking in Python and is
`none`. -/
def CPCV2_training_step {Img : Type}
    (fwd : Img → List (List Dual))
    (info_nce : List (List Dual) → Dual)
    (probe : List (List Dual) → List (List Dual))
    (cross_entropy : List (List Dual) → List Nat → Dual)
    (dataset : String) (online_evaluator : Bool)
    (batch : CPCBatch Img) : Option CPCStepResult :=
  let go : LabeledBatch Img → LabeledBatch Img → CPCStepResult :=
    fun nceB probeB =>
      let Z := fwd nceB.img
      let nce_loss := info_nce Z
      if online_evaluator then
        let Zng := noGradZ (fwd probeB.img)
        let z_in := detachZ Zng
        let mlp_preds := probe z_in
        let mlp_loss := cross_entropy mlp_preds probeB.y
        ⟨Dual.add nce_loss mlp_loss, nce_loss, some mlp_loss⟩
      else
        ⟨nce_loss, nce_loss, none⟩
  if dataset = "stl10" then
    match batch with
    | .mixed unl lab => some (go unl lab)
    | .plain _ => none
  else
    match batch with
    | .plain b => some (go b b)
    | .mixed _ _ => none

/-- C6: with the online evaluator enabled the returned training loss is the
info-NCE loss plus the auxiliary cross-entropy probe loss; with it disabled
the loss is the info-NCE loss alone.  Both batch layouts are covered: on the
plain layout (every dataset other than stl10) one labeled pair feeds both
losses; on the stl10 mixed layout the unlabeled sub-batch feeds the
info-NCE loss and the labeled sub-batch feeds the probe. -/
theorem training_step_loss {Img : Type}
    (fwd : Img → List (List Dual))
    (info_nce : List (List Dual) → Dual)
    (probe : List (List Dual) → List (List Dual))
    (cross_entropy : List (List Dual) → List Nat → Dual)
    (dataset : String) (b unl lab : LabeledBatch Img)
    (hds : dataset ≠ "stl10") :
    CPCV2_training_step fwd info_nce probe cross_entropy dataset true (.plain b) =
      some ⟨Dual.add (info_nce (fwd b.img))
              (cross_entropy (probe (detachZ (noGradZ (fwd b.img)))) b.y),
            info_nce (fwd b.img),
            some (cross_entropy (probe (detachZ (noGradZ (fwd b.img)))) b.y)⟩ ∧
    CPCV2_training_step fwd info_nce probe cross_entropy dataset false (.plain b) =
      some ⟨info_nce (fwd b.img), info_nce (fwd b.img), none⟩ ∧
    CPCV2_training_step fwd info_nce probe cross_entropy "stl10" true
        (.mixed unl lab) =
      some ⟨Dual.add (info_nce (fwd unl.img))
              (cross_entropy (probe (detachZ (noGradZ (fwd lab.img)))) lab.y),
            info_nce (fwd unl.img),
            some (cross_entropy (probe (detachZ (noGradZ (fwd lab.img)))) lab.y)⟩ ∧
    CPCV2_training_step fwd info_nce probe cross_entropy "stl10" false
        (.mixed unl lab) =
      some ⟨info_nce (fwd unl.img), info_nce (fwd unl.img), none⟩ := by
  refine ⟨?_, ?_, ?_, ?_⟩ <;> simp [CPCV2_training_step, hds]

/-- C6 witness: concrete collaborators on the cifar10 layout and on the
stl10 mixed layout. -/
theorem training_step_loss_witness :
    CPCV2_training_step (fun _ : Unit => [[⟨1, 5⟩]]) (fun _ => ⟨2, 7⟩)
        (fun Z => Z) (fun _ _ => ⟨3, 0⟩) "cifar10" true (.plain ⟨(), [0]⟩) =
      some ⟨Dual.add ⟨2, 7⟩ ⟨3, 0⟩, ⟨2, 7⟩, some ⟨3, 0⟩⟩ ∧
    CPCV2_training_step (fun _ : Unit => [[⟨1, 5⟩]]) (fun _ => ⟨2, 7⟩)
        (fun Z => Z) (fun _ _ => ⟨3, 0⟩) "cifar10" false (.plain ⟨(), [0]⟩) =
      some ⟨⟨2, 7⟩, ⟨2, 7⟩, none⟩ ∧
    CPCV2_training_step (fun _ : Unit => [[⟨1, 5⟩]]) (fun _ => ⟨2, 7⟩)
        (fun Z => Z) (fun _ _ => ⟨3, 0⟩) "stl10" true
        (.mixed ⟨(), [1]⟩ ⟨(), [2]⟩) =
      some ⟨Dual.add ⟨2, 7⟩ ⟨3, 0⟩, ⟨2, 7⟩, some ⟨3, 0⟩⟩ ∧
    CPCV2_training_step (fun _ : Unit => [[⟨1, 5⟩]]) (fun _ => ⟨2, 7⟩)
        (fun Z => Z) (fun _ _ => ⟨3, 0⟩) "stl10" false
        (.mixed ⟨(), [1]⟩ ⟨(), [2]⟩) =
      some ⟨⟨2, 7⟩, ⟨2, 7⟩, none⟩ :=
  training_step_loss (fun _ : Unit => [[⟨1, 5⟩]]) (fun _ => ⟨2, 7⟩)
    (fun Z => Z) (fun _ _ => ⟨3, 0⟩) "cifar10" ⟨(), [0]⟩ ⟨(), [1]⟩ ⟨(), [2]⟩
    (by decide)

/-- Every sensitivity in a detached latent grid is zero. -/
theorem detachZ_grad_zero (Z : List (List Dual)) :
    ∀ row ∈ detachZ Z, ∀ d ∈ row, d.grad = 0 := by
  intro row hrow d hd
  simp only [detachZ, List.mem_map] at hrow
  obtain ⟨r, _, rfl⟩ := hrow
  simp only [List.mem_map] at hd
  obtain ⟨e, _, rfl⟩ := hd
  rfl

/-- C7: the auxiliary probe consumes only the gradient-detached copy of the
latent grid, so — provided the probe and the cross-entropy are autograd
computations (zero input sensitivity yields zero output sensitivity) — the
encoder-parameter sensitivity of the returned loss is the same whether or
not the probe loss is included.  This holds on the plain batch layout
(every dataset other than stl10) and on the stl10 mixed layout, where the
probe consumes the detached latents of the labeled sub-batch. -/
theorem training_step_probe_detached {Img : Type}
    (fwd : Img → List (List Dual))
    (info_nce : List (List Dual) → Dual)
    (probe : List (List Dual) → List (List Dual))
    (cross_entropy : List (List Dual) → List Nat → Dual)
    (dataset : String) (b unl lab : LabeledBatch Img)
    (hds : dataset ≠ "stl10")
    (hprobe : ∀ Z, (∀ row ∈ Z, ∀ d ∈ row, d.grad = 0) →
      ∀ row ∈ probe Z, ∀ d ∈ row, d.grad = 0)
    (hce : ∀ P y, (∀ row ∈ P, ∀ d ∈ row, d.grad = 0) →
      (cross_entropy P y).grad = 0) :
    ((CPCV2_training_step fwd info_nce probe cross_entropy dataset true
        (.plain b)).map (fun r => r.loss.grad) =
      (CPCV2_training_step fwd info_nce probe cross_entropy dataset false
        (.plain b)).map (fun r => r.loss.grad)) ∧
    ((CPCV2_training_step fwd info_nce probe cross_entropy "stl10" true
        (.mixed unl lab)).map (fun r => r.loss.grad) =
      (CPCV2_training_step fwd info_nce probe cross_entropy "stl10" false
        (.mixed unl lab)).map (fun r => r.loss.grad)) := by
  obtain ⟨hon, hoff, hon10, hoff10⟩ :=
    training_step_loss fwd info_nce probe cross_entropy dataset b unl lab hds
  constructor
  · rw [hon, hoff]
    have hz := detachZ_grad_zero (noGradZ (fwd b.img))
    have hmlp :
        (cross_entropy (probe (detachZ (noGradZ (fwd b.img)))) b.y).grad = 0 :=
      hce _ _ (hprobe _ hz)
    simp [Dual.add, hmlp]
  · rw [hon10, hoff10]
    have hz := detachZ_grad_zero (noGradZ (fwd lab.img))
    have hmlp :
        (cross_entropy (probe (detachZ (noGradZ (fwd lab.img)))) lab.y).grad = 0 :=
      hce _ _ (hprobe _ hz)
    simp [Dual.add, hmlp]

/-- C7 witness: same concrete collaborators on both layouts; the probe is
the identity and the cross-entropy is constant, so both satisfy the
autograd hypotheses. -/
theorem training_step_probe_detached_witness :
    ((CPCV2_training_step (fun _ : Unit => [[⟨1, 5⟩]]) (fun _ => ⟨2, 7⟩)
        (fun Z => Z) (fun _ _ => ⟨3, 0⟩) "cifar10" true
        (.plain ⟨(), [0]⟩)).map (fun r => r.loss.grad) =
      (CPCV2_training_step (fun _ : Unit => [[⟨1, 5⟩]]) (fun _ => ⟨2, 7⟩)
        (fun Z => Z) (fun _ _ => ⟨3, 0⟩) "cifar10" false
        (.plain ⟨(), [0]⟩)).map (fun r => r.loss.grad)) ∧
    ((CPCV2_training_step (fun _ : Unit => [[⟨1, 5⟩]]) (fun _ => ⟨2, 7⟩)
        (fun Z => Z) (fun _ _ => ⟨3, 0⟩) "stl10" true
        (.mixed ⟨(), [1]⟩ ⟨(), [2]⟩)).map (fun r => r.loss.grad) =
      (CPCV2_training_step (fun _ : Unit => [[⟨1, 5⟩]]) (fun _ => ⟨2, 7⟩)
        (fun Z => Z) (fun _ _ => ⟨3, 0⟩) "stl10" false
        (.mixed ⟨(), [1]⟩ ⟨(), [2]⟩)).map (fun r => r.loss.grad)) :=
  training_step_probe_detached (fun _ : Unit => [[⟨1, 5⟩]]) (fun _ => ⟨2, 7⟩)
    (fun Z => Z) (fun _ _ => ⟨3, 0⟩) "cifar10" ⟨(), [0]⟩ ⟨(), [1]⟩ ⟨(), [2]⟩
    (by decide) (fun _ h => h) (fun _ _ _ => rfl)

/-! ## Encoder-output selection in `CPCV2.forward`
(cpc_module.py, lines 183-198; the same branch appears in
`__compute_final_nb_c`, lines 161-171) -/

/-- The raw result of `self.encoder(img_1)`: the custom `CPCResNet101`
returns a bare tensor, the torchvision ssl encoders return a list of
feature maps. -/
inductive EncoderOutput (T : Type)
  | single (t : T)
  | multi (ts : List T)

/-- Embedding of the post-processing branch of `CPCV2.forward`:

    Z = self.encoder(img_1)
    if self.hparams.encoder != "cpc_encoder":
        Z = Z[0]

`Z[0]` on a list of feature maps keeps the first map and discards the rest
(indexing an empty list raises, hence `none`).  The mismatched pairings — a
list reaching the cpc branch, or a bare tensor reaching the indexing branch,
where `Z[0]` would instead slice the tensor — never occur in the source and
are modelled as `none`. -/
def select_encoder_output {T : Type} (encoder_name : String)
    (Z : EncoderOutput T) : Option T :=
  if encoder_name = "cpc_encoder" then
    match Z with
    | .single t => some t
    | .multi _ => none
  else
    match Z with
    | .multi ts => ts.head?
    | .single _ => none

/-- C8: exactly for the encoder hyperparameter "cpc_encoder" the raw encoder
output is used directly; for every other encoder name only the first
returned feature map is kept and the remaining maps are discarded — the
result does not depend on them.  The decision is the string comparison
against "cpc_encoder". -/
theorem select_encoder_output_spec {T : Type} (name : String)
    (t : T) (ts : List T) (hname : name ≠ "cpc_encoder") :
    select_encoder_output "cpc_encoder" (.single t) = some t ∧
    select_encoder_output name (.multi (t :: ts)) = some t := by
  constructor
  · rfl
  · simp [select_encoder_output, hname]

/-- C8 witness: the torchvision name "resnet18" keeps only the first of
three feature maps. -/
theorem select_encoder_output_spec_witness :
    select_encoder_output "cpc_encoder" (.single (0 : Nat)) = some 0 ∧
    select_encoder_output "resnet18" (.multi ((0 : Nat) :: [1, 2])) = some 0 :=
  select_encoder_output_spec "resnet18" 0 [1, 2] (by decide)

/-! ## The `pretrained` override in `CPCV2.__init__`
(cpc_module.py, lines 100-110) -/

/-- The hyperparameter record captured by `self.save_hyperparameters()` from
the constructor arguments.  The float `learning_rate` and fields never read
by the logic under study (`task`, `amdim_task`) are carried as opaque
strings/naturals where needed or omitted; the fields below are the ones the
constructor logic reads or overwrites. -/
structure CPCHParams where
  encoder : String
  patch_size : Nat
  patch_overlap : Nat
  online_ft : Bool
  dataset : String
  num_workers : Nat
  data_dir : String
  meta_root : String
  batch_size : Nat
deriving DecidableEq

/-- Python truthiness of the `pretrained: str = None` argument: `None` and
the empty string are falsy, every other string is truthy. -/
def truthy : Option String → Bool
  | none => false
  | some s => !(s == "")

/-- The constructor state relevant to C10: the (possibly overwritten)
hyperparameters, the `self.online_evaluator` flag, and the provider chosen
by the subsequent `self.dataset = self.get_dataset(self.hparams.dataset)`
call. -/
structure CPCInitState where
  hparams : CPCHParams
  online_evaluator : Bool
  dataset_provider : DatasetResult
deriving DecidableEq

/-- Embedding of the prefix of `CPCV2.__init__` through the dataset lookup:

    self.save_hyperparameters()
    self.online_evaluator = self.hparams.online_ft
    if pretrained:
        self.hparams.dataset = "imagenet128"
        self.online_evaluator = True
        self.hparams.encoder = pretrained
    self.dataset = self.get_dataset(self.hparams.dataset)

The encoder construction and loss-head construction that follow consume the
already-overwritten hyperparameters and are not needed for C10. -/
def CPCV2_init (hp : CPCHParams) (pretrained : Option String) : CPCInitState :=
  let online_evaluator := hp.online_ft
  if truthy pretrained then
    let hp1 := { hp with dataset := "imagenet128",
                         encoder := pretrained.getD hp.encoder }
    { hparams := hp1, online_evaluator := true,
      dataset_provider := get_dataset hp1.dataset }
  else
    { hparams := hp, online_evaluator := online_evaluator,
      dataset_provider := get_dataset hp.dataset }

/-- C10: for every truthy `pretrained` argument the constructor overwrites
the stored hyperparameters before any other use — the dataset becomes
"imagenet128" and the encoder becomes the pretrained name, regardless of the
`dataset` and `encoder` arguments passed — the online evaluator is
force-enabled, and the subsequent dataset lookup already sees the
overridden name, returning the imagenet provider. -/
theorem init_pretrained_overrides (hp : CPCHParams) (s : String)
    (hs : truthy (some s) = true) :
    (CPCV2_init hp (some s)).hparams.dataset = "imagenet128" ∧
    (CPCV2_init hp (some s)).hparams.encoder = s ∧
    (CPCV2_init hp (some s)).online_evaluator = true ∧
    (CPCV2_init hp (some s)).dataset_provider =
      .provider .SSLImagenetDataLoaders := by
  have hds : get_dataset "imagenet128" = .provider .SSLImagenetDataLoaders := rfl
  refine ⟨?_, ?_, ?_, ?_⟩ <;> simp [CPCV2_init, hs, hds]

/-- C10 witness: the constructor defaults (`encoder="cpc_encoder"`,
`dataset="cifar10"`, ...) with `pretrained="resnet18"`. -/
theorem init_pretrained_overrides_witness :
    (CPCV2_init ⟨"cpc_encoder", 8, 4, true, "cifar10", 4, "", "", 32⟩
        (some "resnet18")).hparams.dataset = "imagenet128" ∧
    (CPCV2_init ⟨"cpc_encoder", 8, 4, true, "cifar10", 4, "", "", 32⟩
        (some "resnet18")).hparams.encoder = "resnet18" ∧
    (CPCV2_init ⟨"cpc_encoder", 8, 4, true, "cifar10", 4, "", "", 32⟩
        (some "resnet18")).online_evaluator = true ∧
    (CPCV2_init ⟨"cpc_encoder", 8, 4, true, "cifar10", 4, "", "", 32⟩
        (some "resnet18")).dataset_provider =
      .provider .SSLImagenetDataLoaders :=
  init_pretrained_overrides ⟨"cpc_encoder", 8, 4, true, "cifar10", 4, "", "", 32⟩
    "resnet18" (by decide)

end PlBolts
